import Mathlib

/-
Verification of the SAF (sustainable aviation fuel) LCA model
(src/LCA_calculation.py, class SAF_LCA_Model) by a shallow embedding
over exact rationals.  Python dictionaries holding a fixed set of keys
become Lean structures; a missing parameter group (empty dict) becomes
`none`; Python exceptions (ValueError, KeyError, ZeroDivisionError)
become an explicit `LCAError` value threaded through `Except`.
Python float arithmetic is modelled by exact `ℚ` arithmetic; every
decimal literal of the source is the corresponding exact rational.
-/

namespace SAFLCA

/-- Parameters stored by `set_carbon_capture_data`. -/
structure CarbonCaptureData where
  capture_efficiency : ℚ
  energy_requirement : ℚ
  ghg_emissions : ℚ
  water_usage : ℚ
  co2_capture_rate : ℚ
  deriving DecidableEq

/-- Parameters stored by `set_electrolysis_data`. -/
structure ElectrolysisData where
  co2_electrolysis_efficiency : ℚ
  water_electrolysis_efficiency : ℚ
  electricity_source : String
  electricity_carbon_intensity : ℚ
  energy_input_co : ℚ
  energy_input_h2 : ℚ
  water_usage : ℚ
  deriving DecidableEq

/-- Parameters stored by `set_conversion_data`.  The two optional
stoichiometric parameters are stored only when supplied, mirroring the
`if ... is not None` guards of the source. -/
structure ConversionData where
  technology : String
  efficiency : ℚ
  ghg_emissions : ℚ
  energy_input : ℚ
  water_usage : ℚ
  syngas_requirement : Option ℚ
  co_h2_ratio : Option ℚ
  deriving DecidableEq

/-- Parameters stored by `set_distribution_data`, including the fields
derived from the transport mode and distance at set time. -/
structure DistributionData where
  transport_distance : ℚ
  transport_mode : String
  fuel_density : ℚ
  emission_factor : ℚ
  energy_factor : ℚ
  ghg_emissions : ℚ
  energy_input : ℚ
  deriving DecidableEq

/-- Parameters stored by `set_use_phase_data`. -/
structure UsePhaseData where
  combustion_emissions : ℚ
  energy_density : ℚ
  deriving DecidableEq

/-- The `results["ghg_emissions"]` dictionary written by `calculate_lca`. -/
structure GhgResult where
  carbon_capture : ℚ
  electrolysis : ℚ
  conversion : ℚ
  distribution : ℚ
  use_phase : ℚ
  total : ℚ
  deriving DecidableEq

/-- The `results["energy_consumption"]` dictionary written by
`calculate_lca`: it has no `use_phase` key. -/
structure EnergyResult where
  carbon_capture : ℚ
  electrolysis : ℚ
  conversion : ℚ
  distribution : ℚ
  total : ℚ
  deriving DecidableEq

/-- The `results["water_usage"]` dictionary written by `calculate_lca`:
it has no `distribution` and no `use_phase` key. -/
structure WaterResult where
  carbon_capture : ℚ
  electrolysis : ℚ
  conversion : ℚ
  total : ℚ
  deriving DecidableEq

/-- The `results["land_use"]` dictionary written by `calculate_lca`:
only a `total` key. -/
structure LandUseResult where
  total : ℚ
  deriving DecidableEq

/-- The full nested results mapping. -/
structure LCAResults where
  ghg_emissions : GhgResult
  energy_consumption : EnergyResult
  water_usage : WaterResult
  land_use : LandUseResult
  deriving DecidableEq

/-- Key-indexed access to the `ghg_emissions` dictionary, embedding the
exact key set of the dict literal the source builds. -/
def GhgResult.lookup (g : GhgResult) (k : String) : Option ℚ :=
  if k = "carbon_capture" then some g.carbon_capture
  else if k = "electrolysis" then some g.electrolysis
  else if k = "conversion" then some g.conversion
  else if k = "distribution" then some g.distribution
  else if k = "use_phase" then some g.use_phase
  else if k = "total" then some g.total
  else none

/-- Key-indexed access to the `energy_consumption` dictionary. -/
def EnergyResult.lookup (e : EnergyResult) (k : String) : Option ℚ :=
  if k = "carbon_capture" then some e.carbon_capture
  else if k = "electrolysis" then some e.electrolysis
  else if k = "conversion" then some e.conversion
  else if k = "distribution" then some e.distribution
  else if k = "total" then some e.total
  else none

/-- Key-indexed access to the `water_usage` dictionary. -/
def WaterResult.lookup (w : WaterResult) (k : String) : Option ℚ :=
  if k = "carbon_capture" then some w.carbon_capture
  else if k = "electrolysis" then some w.electrolysis
  else if k = "conversion" then some w.conversion
  else if k = "total" then some w.total
  else none

/-- Key-indexed access to the `land_use` dictionary. -/
def LandUseResult.lookup (l : LandUseResult) (k : String) : Option ℚ :=
  if k = "total" then some l.total else none

/-- Exceptions the source can raise on the modelled paths:
`missingData` is the ValueError of `calculate_lca` when a parameter
group is unset, `valueError` the ValueError of `set_distribution_data`
on an unknown transport mode, `divByZero` a Python ZeroDivisionError,
and `keyError` a KeyError on a missing dictionary key. -/
inductive LCAError where
  | missingData
  | divByZero
  | valueError
  | keyError
  deriving DecidableEq

/-- Decidable success test for an `Except` outcome. -/
def exceptIsOk {ε α : Type} (x : Except ε α) : Bool :=
  match x with
  | .ok _ => true
  | .error _ => false

/-- The model object: five optional parameter groups plus the stored
results (`none` models the freshly initialised empty dicts). -/
structure SAF_LCA_Model where
  conversion_data : Option ConversionData
  distribution_data : Option DistributionData
  use_phase_data : Option UsePhaseData
  carbon_capture_data : Option CarbonCaptureData
  electrolysis_data : Option ElectrolysisData
  results : Option LCAResults
  deriving DecidableEq

/-- The state produced by `SAF_LCA_Model.__init__`. -/
def initModel : SAF_LCA_Model :=
  { conversion_data := none
    distribution_data := none
    use_phase_data := none
    carbon_capture_data := none
    electrolysis_data := none
    results := none }

/-- `set_conversion_data`. -/
def SAF_LCA_Model.set_conversion_data (m : SAF_LCA_Model) (technology : String)
    (efficiency ghg_emissions energy_input water_usage : ℚ)
    (syngas_requirement co_h2_ratio : Option ℚ) : SAF_LCA_Model :=
  let cd : ConversionData :=
    { technology := technology,
      efficiency := efficiency,
      ghg_emissions := ghg_emissions,
      energy_input := energy_input,
      water_usage := water_usage,
      syngas_requirement := syngas_requirement,
      co_h2_ratio := co_h2_ratio }
  { m with conversion_data := some cd }

/-- Python dictionary lookup over a literal table of named rationals. -/
def lookupTable : List (String × ℚ) → String → Option ℚ
  | [], _ => none
  | (k, v) :: rest, key => if key = k then some v else lookupTable rest key

/-- The transport-mode emission factor table (kg CO2e/tonne-km). -/
def emission_factors : List (String × ℚ) :=
  [("truck", 0.062), ("rail", 0.022), ("ship", 0.015),
   ("barge", 0.031), ("pipeline", 0.002)]

/-- The transport-mode energy factor table (MJ/tonne-km). -/
def energy_factors : List (String × ℚ) :=
  [("truck", 2.1), ("rail", 0.6), ("ship", 0.4),
   ("barge", 0.8), ("pipeline", 0.1)]

/-- `set_distribution_data`: validates the transport mode against the
factor table (raising ValueError before any state change), then stores
the parameters together with the derived per-kg emissions and energy. -/
def SAF_LCA_Model.set_distribution_data (m : SAF_LCA_Model)
    (transport_distance : ℚ) (transport_mode : String) (fuel_density : ℚ) :
    Except LCAError SAF_LCA_Model :=
  match lookupTable emission_factors transport_mode, lookupTable energy_factors transport_mode with
  | some emission_factor, some energy_factor =>
    let fuel_weight_tonne : ℚ := 0.001
    let transport_emissions := emission_factor * fuel_weight_tonne * transport_distance
    let transport_energy := energy_factor * fuel_weight_tonne * transport_distance
    let dd : DistributionData :=
      { transport_distance := transport_distance,
        transport_mode := transport_mode,
        fuel_density := fuel_density,
        emission_factor := emission_factor,
        energy_factor := energy_factor,
        ghg_emissions := transport_emissions,
        energy_input := transport_energy }
    .ok { m with distribution_data := some dd }
  | _, _ => .error .valueError

/-- Run `set_distribution_data` as a state transition: the Python raise
happens before the assignment to `self.distribution_data`, so on error
the object is unchanged. -/
def SAF_LCA_Model.runSetDistribution (m : SAF_LCA_Model)
    (transport_distance : ℚ) (transport_mode : String) (fuel_density : ℚ) :
    SAF_LCA_Model × Option LCAError :=
  match m.set_distribution_data transport_distance transport_mode fuel_density with
  | .ok m' => (m', none)
  | .error e => (m, some e)

/-- `set_use_phase_data`. -/
def SAF_LCA_Model.set_use_phase_data (m : SAF_LCA_Model)
    (combustion_emissions energy_density : ℚ) : SAF_LCA_Model :=
  let ud : UsePhaseData :=
    { combustion_emissions := combustion_emissions,
      energy_density := energy_density }
  { m with use_phase_data := some ud }

/-- `set_carbon_capture_data`. -/
def SAF_LCA_Model.set_carbon_capture_data (m : SAF_LCA_Model)
    (capture_efficiency energy_requirement ghg_emissions water_usage
     co2_capture_rate : ℚ) : SAF_LCA_Model :=
  let ccd : CarbonCaptureData :=
    { capture_efficiency := capture_efficiency,
      energy_requirement := energy_requirement,
      ghg_emissions := ghg_emissions,
      water_usage := water_usage,
      co2_capture_rate := co2_capture_rate }
  { m with carbon_capture_data := some ccd }

/-- The electricity-source carbon intensity table of
`set_electrolysis_data` (kg CO2e/kWh), in source order. -/
def electricity_carbon_intensities : List (String × ℚ) :=
  [("grid_global", 0.475), ("grid_eu", 0.253), ("grid_china", 0.638),
   ("grid_us", 0.389), ("natural_gas", 0.410), ("coal", 0.820),
   ("solar", 0.048), ("wind", 0.011), ("hydro", 0.024),
   ("nuclear", 0.012), ("biomass", 0.230), ("renewable_mix", 0.030),
   ("low_carbon_mix", 0.100), ("renewable", 0.020)]

/-- Resolution of the stored carbon intensity: an explicit value wins;
otherwise the source is looked up in the table, falling back to the
"renewable" default. -/
def resolveIntensity (electricity_source : String) (intensity : Option ℚ) : ℚ :=
  match intensity with
  | some i => i
  | none =>
    match lookupTable electricity_carbon_intensities electricity_source with
    | some i => i
    | none => 0.020

/-- Whether `set_electrolysis_data` reaches its unrecognized-source
warning branch (the diagnostic is printed unless silenced; it never
aborts the call). -/
def elecWarning (electricity_source : String) (intensity : Option ℚ) : Bool :=
  intensity.isNone && (lookupTable electricity_carbon_intensities electricity_source).isNone

/-- `set_electrolysis_data`: always succeeds; returns the updated model
together with the flag of the non-fatal unrecognized-source diagnostic. -/
def SAF_LCA_Model.set_electrolysis_data (m : SAF_LCA_Model)
    (co2_electrolysis_efficiency water_electrolysis_efficiency : ℚ)
    (electricity_source : String)
    (energy_input_co energy_input_h2 water_usage : ℚ)
    (electricity_carbon_intensity : Option ℚ) : SAF_LCA_Model × Bool :=
  let ed : ElectrolysisData :=
    { co2_electrolysis_efficiency := co2_electrolysis_efficiency,
      water_electrolysis_efficiency := water_electrolysis_efficiency,
      electricity_source := electricity_source,
      electricity_carbon_intensity := resolveIntensity electricity_source electricity_carbon_intensity,
      energy_input_co := energy_input_co,
      energy_input_h2 := energy_input_h2,
      water_usage := water_usage }
  ({ m with electrolysis_data := some ed },
   elecWarning electricity_source electricity_carbon_intensity)

/-- The straight-line arithmetic of `calculate_lca` on the success
path, given the five populated parameter groups, with every local of
the source kept by name. -/
def calcResultOf (cc : CarbonCaptureData) (el : ElectrolysisData)
    (cv : ConversionData) (dist : DistributionData) (up : UsePhaseData) :
    LCAResults :=
  let normalization_factor := 1 / up.energy_density
  let actual_co2_needed := cc.co2_capture_rate / (cc.capture_efficiency / 100)
  let carbon_capture_ghg := cc.ghg_emissions * actual_co2_needed * normalization_factor
  let elec_intensity_mj := el.electricity_carbon_intensity / 3.6
  let co_h2_ratio := cv.co_h2_ratio.getD 0.5
  let total_syngas_needed := cv.syngas_requirement.getD 2.5 * normalization_factor
  let co_needed := total_syngas_needed * (co_h2_ratio / (1 + co_h2_ratio))
  let h2_needed := total_syngas_needed * (1 / (1 + co_h2_ratio))
  let actual_co_needed := co_needed / (el.co2_electrolysis_efficiency / 100)
  let actual_h2_needed := h2_needed / (el.water_electrolysis_efficiency / 100)
  let co_emissions := actual_co_needed * el.energy_input_co * elec_intensity_mj
  let h2_emissions := actual_h2_needed * el.energy_input_h2 * elec_intensity_mj
  let electrolysis_ghg := co_emissions + h2_emissions
  let conversion_ghg := cv.ghg_emissions * normalization_factor
  let distribution_ghg := dist.ghg_emissions * normalization_factor
  let use_phase_ghg := up.combustion_emissions * normalization_factor
  let total_ghg := carbon_capture_ghg + electrolysis_ghg + conversion_ghg + distribution_ghg + use_phase_ghg
  let carbon_capture_energy := (cc.energy_requirement * actual_co2_needed) * normalization_factor
  let co_energy := actual_co_needed * el.energy_input_co
  let h2_energy := actual_h2_needed * el.energy_input_h2
  let electrolysis_energy := co_energy + h2_energy
  let conversion_energy := cv.energy_input * normalization_factor
  let distribution_energy := dist.energy_input * normalization_factor
  let total_energy := carbon_capture_energy + electrolysis_energy + conversion_energy + distribution_energy
  let carbon_capture_water := cc.water_usage * actual_co2_needed * normalization_factor
  let electrolysis_water := el.water_usage * total_syngas_needed
  let conversion_water := cv.water_usage * normalization_factor
  { ghg_emissions :=
      { carbon_capture := carbon_capture_ghg,
        electrolysis := electrolysis_ghg,
        conversion := conversion_ghg,
        distribution := distribution_ghg,
        use_phase := use_phase_ghg,
        total := total_ghg },
    energy_consumption :=
      { carbon_capture := carbon_capture_energy,
        electrolysis := electrolysis_energy,
        conversion := conversion_energy,
        distribution := distribution_energy,
        total := total_energy },
    water_usage :=
      { carbon_capture := carbon_capture_water,
        electrolysis := electrolysis_water,
        conversion := conversion_water,
        total := carbon_capture_water + electrolysis_water + conversion_water },
    land_use := { total := 0 } }

/-- The body of `calculate_lca` once the parameter groups are present.
Each `if _ = 0` guard models the ZeroDivisionError Python raises at the
corresponding division, in source order; every division of the source
precedes its first write to `self.results`. -/
def calcAll (cc : CarbonCaptureData) (el : ElectrolysisData)
    (cv : ConversionData) (dist : DistributionData) (up : UsePhaseData) :
    Except LCAError LCAResults :=
  if up.energy_density = 0 then .error .divByZero
  else if cc.capture_efficiency = 0 then .error .divByZero
  else if 1 + cv.co_h2_ratio.getD 0.5 = 0 then .error .divByZero
  else if el.co2_electrolysis_efficiency = 0 then .error .divByZero
  else if el.water_electrolysis_efficiency = 0 then .error .divByZero
  else .ok (calcResultOf cc el cv dist up)

/-- `calculate_lca` as a pure computation of the result: the initial
`all(...)` check raises the missing-data ValueError when any of the
five parameter groups is still empty. -/
def SAF_LCA_Model.calculate_lca (m : SAF_LCA_Model) : Except LCAError LCAResults :=
  match m.carbon_capture_data, m.electrolysis_data, m.conversion_data,
        m.distribution_data, m.use_phase_data with
  | some cc, some el, some cv, some dist, some up => calcAll cc el cv dist up
  | _, _, _, _, _ => .error .missingData

/-- `calculate_lca` as a state transition.  In the source every division
(lines 709-729) precedes the first write to `self.results` (line 750)
and no later statement can raise, so an exception leaves the stored
results unchanged. -/
def SAF_LCA_Model.runCalculate (m : SAF_LCA_Model) :
    SAF_LCA_Model × Except LCAError LCAResults :=
  match m.calculate_lca with
  | .ok r => ({ m with results := some r }, .ok r)
  | .error e => (m, .error e)

/-- `calculate_emission_reduction`: auto-triggers `calculate_lca` when
no GHG result is stored, then derives the reduction percentage against
the fossil baseline.  A zero baseline models the float division error. -/
def SAF_LCA_Model.calculate_emission_reduction (m : SAF_LCA_Model)
    (fossil_jet_emissions : ℚ) : Except LCAError (SAF_LCA_Model × ℚ) :=
  match m.results with
  | some res =>
    if fossil_jet_emissions = 0 then .error .divByZero
    else
      let saf_emissions := res.ghg_emissions.total * 1000
      .ok (m, (fossil_jet_emissions - saf_emissions) / fossil_jet_emissions * 100)
  | none =>
    match m.runCalculate with
    | (m', .ok r) =>
      if fossil_jet_emissions = 0 then .error .divByZero
      else
        let saf_emissions := r.ghg_emissions.total * 1000
        .ok (m', (fossil_jet_emissions - saf_emissions) / fossil_jet_emissions * 100)
    | (_, .error e) => .error e

/-- One row of the electricity-source sensitivity table.  The
contribution column is filled in after the sweep, as in the source. -/
structure ElecRow where
  electricity_source : String
  carbon_intensity : ℚ
  saf_emissions_mjbasis : ℚ
  emission_reduction : ℚ
  electrolysis_emissions : ℚ
  total_emissions : ℚ
  electrolysis_contribution : ℚ
  deriving DecidableEq

/-- One row of the transport-mode sensitivity table. -/
structure TransportRow where
  transport_mode : String
  emission_factor : ℚ
  energy_factor : ℚ
  transport_emissions : ℚ
  saf_emissions_mjbasis : ℚ
  emission_reduction : ℚ
  total_emissions : ℚ
  transport_contribution : ℚ
  deriving DecidableEq

/-- The default source list of `analyze_electricity_sources`. -/
def default_electricity_sources : List String :=
  ["renewable_mix", "grid_global", "grid_eu", "grid_us",
   "grid_china", "natural_gas", "coal", "solar", "wind", "hydro", "renewable"]

/-- The default mode list of `analyze_transport_modes`. -/
def default_transport_modes : List String :=
  ["truck", "rail", "ship", "barge", "pipeline"]

/-- The per-source loop of `analyze_electricity_sources`: re-set the
electrolysis data with the new source (intensity resolved from the
table), recompute the LCA, and record one row.  The energy inputs
passed are the ones captured before the loop. -/
def elecSweepLoop (original_co original_h2 : ℚ) :
    List String → SAF_LCA_Model → Except LCAError (SAF_LCA_Model × List ElecRow)
  | [], m => .ok (m, [])
  | source :: rest, m =>
    match m.electrolysis_data with
    | none => .error .keyError
    | some el =>
      let m1 := (m.set_electrolysis_data el.co2_electrolysis_efficiency
        el.water_electrolysis_efficiency source original_co original_h2
        el.water_usage none).1
      match m1.calculate_lca with
      | .error e => .error e
      | .ok r =>
        let m2 := { m1 with results := some r }
        let saf_emissions := r.ghg_emissions.total * 1000
        let row : ElecRow :=
          { electricity_source := source
            carbon_intensity := resolveIntensity source none
            saf_emissions_mjbasis := saf_emissions
            emission_reduction := (89.0 - saf_emissions) / 89.0 * 100
            electrolysis_emissions := r.ghg_emissions.electrolysis * 1000
            total_emissions := saf_emissions
            electrolysis_contribution := 0 }
        match elecSweepLoop original_co original_h2 rest m2 with
        | .error e => .error e
        | .ok (mf, rows) => .ok (mf, row :: rows)

/-- `analyze_electricity_sources`: capture the original electrolysis
parameters, sweep the sources, restore the captured parameters exactly
(pinning the captured intensity), recompute once, and derive the
contribution column.  An empty electrolysis dict raises KeyError on
the first dictionary access.  Rational division by zero is 0, where
the source's vectorized contribution column would produce inf/nan; no
claim depends on that column. -/
def SAF_LCA_Model.analyze_electricity_sources (m : SAF_LCA_Model)
    (electricity_sources : List String) :
    Except LCAError (SAF_LCA_Model × List ElecRow) :=
  match m.electrolysis_data with
  | none => .error .keyError
  | some el0 =>
    match elecSweepLoop el0.energy_input_co el0.energy_input_h2 electricity_sources m with
    | .error e => .error e
    | .ok (mf, rows) =>
      match mf.electrolysis_data with
      | none => .error .keyError
      | some elf =>
        let mr := (mf.set_electrolysis_data elf.co2_electrolysis_efficiency
          elf.water_electrolysis_efficiency el0.electricity_source
          el0.energy_input_co el0.energy_input_h2 elf.water_usage
          (some el0.electricity_carbon_intensity)).1
        match mr.calculate_lca with
        | .error e => .error e
        | .ok r =>
          .ok ({ mr with results := some r },
            rows.map (fun row =>
              { row with electrolysis_contribution :=
                  row.electrolysis_emissions / row.total_emissions * 100 }))

/-- The per-mode loop of `analyze_transport_modes`. -/
def transportSweepLoop (base_distance original_density : ℚ) :
    List String → SAF_LCA_Model → Except LCAError (SAF_LCA_Model × List TransportRow)
  | [], m => .ok (m, [])
  | mode :: rest, m =>
    match m.set_distribution_data base_distance mode original_density with
    | .error e => .error e
    | .ok m1 =>
      match m1.calculate_lca with
      | .error e => .error e
      | .ok r =>
        let m2 := { m1 with results := some r }
        match m2.distribution_data with
        | none => .error .keyError
        | some d =>
          let saf_emissions := r.ghg_emissions.total * 1000
          let row : TransportRow :=
            { transport_mode := mode
              emission_factor := d.emission_factor
              energy_factor := d.energy_factor
              transport_emissions := r.ghg_emissions.distribution * 1000
              saf_emissions_mjbasis := saf_emissions
              emission_reduction := (89.0 - saf_emissions) / 89.0 * 100
              total_emissions := saf_emissions
              transport_contribution := 0 }
          match transportSweepLoop base_distance original_density rest m2 with
          | .error e => .error e
          | .ok (mf, rows) => .ok (mf, row :: rows)

/-- `analyze_transport_modes`: capture the original distribution
parameters (with the source's `.get` defaults), sweep the modes at the
base distance, restore by re-running the distribution setter with the
captured values, recompute once, and derive the contribution column. -/
def SAF_LCA_Model.analyze_transport_modes (m : SAF_LCA_Model)
    (transport_modes : List String) (base_distance : ℚ) :
    Except LCAError (SAF_LCA_Model × List TransportRow) :=
  let original_distance := match m.distribution_data with
    | some d => d.transport_distance
    | none => 500
  let original_mode := match m.distribution_data with
    | some d => d.transport_mode
    | none => "truck"
  let original_density := match m.distribution_data with
    | some d => d.fuel_density
    | none => 0.8
  match transportSweepLoop base_distance original_density transport_modes m with
  | .error e => .error e
  | .ok (mf, rows) =>
    match mf.set_distribution_data original_distance original_mode original_density with
    | .error e => .error e
    | .ok mr =>
      match mr.calculate_lca with
      | .error e => .error e
      | .ok r =>
        .ok ({ mr with results := some r },
          rows.map (fun row =>
            { row with transport_contribution :=
                row.transport_emissions / row.total_emissions * 100 }))

/-- A stored distribution record is well formed when its derived fields
agree with the factor tables and the setter's formulas: every record
actually produced by `set_distribution_data` is of this shape. -/
def DistributionData.wf (d : DistributionData) : Prop :=
  lookupTable emission_factors d.transport_mode = some d.emission_factor ∧
  lookupTable energy_factors d.transport_mode = some d.energy_factor ∧
  d.ghg_emissions = d.emission_factor * 0.001 * d.transport_distance ∧
  d.energy_input = d.energy_factor * 0.001 * d.transport_distance

/-- The documented example configuration of the repository's
`__main__` block, built through the same setter sequence. -/
def exampleModel : SAF_LCA_Model :=
  let m1 := initModel.set_use_phase_data 0.0 43.0
  let m2 := m1.set_carbon_capture_data 80.0 20.0 0.08 5.0 3.1
  let m3 := (m2.set_electrolysis_data 65.0 75.0 "wind" 28.0 55.0 20.0 none).1
  let m4 := m3.set_conversion_data "Fischer-Tropsch" 0.65 0.2 25.0 5.0 (some 2.13) (some 0.923)
  match m4.set_distribution_data 500.0 "truck" 0.8 with
  | .ok m5 => m5
  | .error _ => m4

/-- An all-zero results record, used only as the fallback of
projections out of an `Except` that is in fact a success. -/
def fallbackResults : LCAResults :=
  { ghg_emissions := ⟨0, 0, 0, 0, 0, 0⟩,
    energy_consumption := ⟨0, 0, 0, 0, 0⟩,
    water_usage := ⟨0, 0, 0, 0⟩,
    land_use := ⟨0⟩ }

/-- The LCA results of the documented example configuration. -/
def exampleCalcResult : LCAResults :=
  match exampleModel.calculate_lca with
  | .ok r => r
  | .error _ => fallbackResults

/-- The example model after one engine run has stored its results. -/
def exampleModelAfterCalc : SAF_LCA_Model :=
  (exampleModel.runCalculate).1

/-- The carbon-capture record of the example configuration. -/
def exampleCC : CarbonCaptureData := ⟨80.0, 20.0, 0.08, 5.0, 3.1⟩

/-- The electrolysis record of the example configuration (wind power). -/
def exampleEL : ElectrolysisData := ⟨65.0, 75.0, "wind", 0.011, 28.0, 55.0, 20.0⟩

/-- The conversion record of the example configuration. -/
def exampleCV : ConversionData := ⟨"Fischer-Tropsch", 0.65, 0.2, 25.0, 5.0, some 2.13, some 0.923⟩

/-- The distribution record of the example configuration
(truck over 500 km, with its derived fields). -/
def exampleDist : DistributionData := ⟨500.0, "truck", 0.8, 0.062, 2.1, 0.031, 1.05⟩

/-- The use-phase record of the example configuration. -/
def exampleUP : UsePhaseData := ⟨0.0, 43.0⟩

/-- The example configuration with the energy density overwritten by
zero, exercising the division hazard of the engine. -/
def zeroEnergyDensityModel : SAF_LCA_Model :=
  exampleModel.set_use_phase_data 0.0 0.0

/-- The exact LCA results of the documented example configuration,
written out as explicit rationals. -/
def exampleResult : LCAResults :=
  { ghg_emissions := ⟨31/4300, 3312221/372100500, 1/215, 31/43000, 0, 371803/17307000⟩,
    energy_consumption := ⟨155/86, 1204444/413445, 25/43, 21/860, 8800309/1653780⟩,
    water_usage := ⟨155/344, 213/215, 5/43, 2679/1720⟩,
    land_use := ⟨0⟩ }

/-- The set of transport modes accepted by `set_distribution_data`. -/
def valid_transport_modes : List String :=
  ["truck", "rail", "ship", "barge", "pipeline"]

/-- The five life-cycle stage names of the pathway. -/
def stage_names : List String :=
  ["carbon_capture", "electrolysis", "conversion", "distribution", "use_phase"]

/-- The distribution record `set_distribution_data` stores for a given
distance, mode, density and factor pair. -/
def mkDistribution (d : ℚ) (mode : String) (dens ef enf : ℚ) : DistributionData :=
  ⟨d, mode, dens, ef, enf, ef * 0.001 * d, enf * 0.001 * d⟩

/-- The example model after re-setting truck distribution at 500 km
(the distance it already has). -/
def exampleModelD1 : SAF_LCA_Model :=
  match exampleModel.set_distribution_data 500.0 "truck" 0.8 with
  | .ok m' => m'
  | .error _ => exampleModel

/-- The example model with truck distribution moved out to 600 km. -/
def exampleModelD2 : SAF_LCA_Model :=
  match exampleModel.set_distribution_data 600.0 "truck" 0.8 with
  | .ok m' => m'
  | .error _ => exampleModel

/-- The example model after an electricity sweep over the single
source "coal". -/
def exampleElecSweepModel : SAF_LCA_Model :=
  match exampleModel.analyze_electricity_sources ["coal"] with
  | .ok p => p.1
  | .error _ => exampleModel

/-- The example model after a transport sweep over the single mode
"rail" at 500 km. -/
def exampleTransSweepModel : SAF_LCA_Model :=
  match exampleModel.analyze_transport_modes ["rail"] 500.0 with
  | .ok p => p.1
  | .error _ => exampleModel

lemma lookupTable_eq_none (t : List (String × ℚ)) (key : String)
    (h : key ∉ t.map Prod.fst) : lookupTable t key = none := by
  induction t with
  | nil => rfl
  | cons p rest ih =>
    obtain ⟨k, v⟩ := p
    simp only [List.map_cons, List.mem_cons] at h
    push_neg at h
    simp only [lookupTable, if_neg h.1]
    exact ih h.2

lemma lookupTable_isSome (t : List (String × ℚ)) (key : String)
    (h : key ∈ t.map Prod.fst) : (lookupTable t key).isSome = true := by
  induction t with
  | nil => simp at h
  | cons p rest ih =>
    obtain ⟨k, v⟩ := p
    by_cases hk : key = k
    · simp [lookupTable, hk]
    · simp only [List.map_cons, List.mem_cons] at h
      rcases h with h | h
      · exact absurd h hk
      · simp [lookupTable, hk, ih h]

lemma resolveIntensity_wind_none : resolveIntensity "wind" none = 0.011 := rfl

lemma resolveIntensity_coal_none : resolveIntensity "coal" none = 0.820 := rfl

lemma lookup_emission_truck : lookupTable emission_factors "truck" = some 0.062 := rfl

lemma lookup_energy_truck : lookupTable energy_factors "truck" = some 2.1 := rfl

lemma lookup_emission_rail : lookupTable emission_factors "rail" = some 0.022 := rfl

lemma lookup_energy_rail : lookupTable energy_factors "rail" = some 0.6 := rfl

lemma calcAll_ok_iff (cc : CarbonCaptureData) (el : ElectrolysisData)
    (cv : ConversionData) (dist : DistributionData) (up : UsePhaseData)
    (r : LCAResults) :
    calcAll cc el cv dist up = .ok r ↔
      up.energy_density ≠ 0 ∧ cc.capture_efficiency ≠ 0 ∧
      1 + cv.co_h2_ratio.getD 0.5 ≠ 0 ∧ el.co2_electrolysis_efficiency ≠ 0 ∧
      el.water_electrolysis_efficiency ≠ 0 ∧ r = calcResultOf cc el cv dist up := by
  unfold calcAll
  split_ifs with h1 h2 h3 h4 h5 <;> simp_all [eq_comm]

lemma calculate_lca_populated (m : SAF_LCA_Model) {cc : CarbonCaptureData}
    {el : ElectrolysisData} {cv : ConversionData} {dist : DistributionData}
    {up : UsePhaseData}
    (hcc : m.carbon_capture_data = some cc) (hel : m.electrolysis_data = some el)
    (hcv : m.conversion_data = some cv) (hdist : m.distribution_data = some dist)
    (hup : m.use_phase_data = some up) :
    m.calculate_lca = calcAll cc el cv dist up := by
  unfold SAF_LCA_Model.calculate_lca
  rw [hcc, hel, hcv, hdist, hup]

lemma calculate_lca_ok_inv {m : SAF_LCA_Model} {r : LCAResults}
    (h : m.calculate_lca = .ok r) :
    ∃ cc el cv dist up, m.carbon_capture_data = some cc ∧
      m.electrolysis_data = some el ∧ m.conversion_data = some cv ∧
      m.distribution_data = some dist ∧ m.use_phase_data = some up ∧
      calcAll cc el cv dist up = .ok r := by
  unfold SAF_LCA_Model.calculate_lca at h
  split at h
  next hcc hel hcv hdist hup => exact ⟨_, _, _, _, _, hcc, hel, hcv, hdist, hup, h⟩
  next => simp at h

lemma exampleModel_eq :
    exampleModel = ⟨some exampleCV, some exampleDist, some exampleUP,
      some exampleCC, some exampleEL, none⟩ := by
  norm_num [exampleModel, initModel, SAF_LCA_Model.set_use_phase_data,
    SAF_LCA_Model.set_carbon_capture_data, SAF_LCA_Model.set_electrolysis_data,
    SAF_LCA_Model.set_conversion_data, SAF_LCA_Model.set_distribution_data,
    resolveIntensity_wind_none, lookup_emission_truck, lookup_energy_truck,
    exampleCV, exampleDist, exampleUP, exampleCC, exampleEL]

lemma exampleModel_calculate : exampleModel.calculate_lca = .ok exampleResult := by
  rw [@calculate_lca_populated exampleModel exampleCC exampleEL exampleCV
    exampleDist exampleUP
    (by rw [exampleModel_eq]) (by rw [exampleModel_eq]) (by rw [exampleModel_eq])
    (by rw [exampleModel_eq]) (by rw [exampleModel_eq])]
  rw [calcAll_ok_iff]
  refine ⟨by norm_num [exampleUP], by norm_num [exampleCC], by norm_num [exampleCV],
    by norm_num [exampleEL], by norm_num [exampleEL], ?_⟩
  norm_num [calcResultOf, exampleResult, exampleCC, exampleEL, exampleCV,
    exampleDist, exampleUP]

/-- C1: with the documented example parameter set (energy density 43,
capture efficiency 80 %, capture rate 3.1, DAC emissions 0.08,
electrolysis efficiencies 65 %/75 %, wind electricity at 0.011
kg CO2e/kWh, energy inputs 28/55, FT emissions 0.2, energy input 25,
syngas requirement 2.13, CO:H2 ratio 0.923, truck over 500 km, zero
combustion emissions), `calculate_lca` yields a total GHG intensity
between 15 and 30 g CO2e/MJ. -/
theorem c1_example_total_ghg_in_range :
    exampleModel.calculate_lca = .ok exampleResult ∧
    15 ≤ exampleResult.ghg_emissions.total * 1000 ∧
    exampleResult.ghg_emissions.total * 1000 ≤ 30 :=
  ⟨exampleModel_calculate, by norm_num [exampleResult], by norm_num [exampleResult]⟩

/-- C2: whenever `calculate_lca` returns a result, the five GHG stage
values sum exactly to the reported total (hence certainly within the
claimed 1e-9 tolerance). -/
theorem c2_ghg_stages_sum_to_total (m : SAF_LCA_Model) (r : LCAResults)
    (h : m.calculate_lca = .ok r) :
    r.ghg_emissions.carbon_capture + r.ghg_emissions.electrolysis +
      r.ghg_emissions.conversion + r.ghg_emissions.distribution +
      r.ghg_emissions.use_phase = r.ghg_emissions.total := by
  obtain ⟨cc, el, cv, dist, up, _, _, _, _, _, hca⟩ := calculate_lca_ok_inv h
  rw [calcAll_ok_iff] at hca
  rw [hca.2.2.2.2.2]
  rfl

/-- C2 witness: the stage sum equals the total on the documented
example configuration. -/
theorem c2_witness :
    exampleModel.calculate_lca = .ok exampleResult ∧
    exampleResult.ghg_emissions.carbon_capture + exampleResult.ghg_emissions.electrolysis +
      exampleResult.ghg_emissions.conversion + exampleResult.ghg_emissions.distribution +
      exampleResult.ghg_emissions.use_phase = exampleResult.ghg_emissions.total :=
  ⟨exampleModel_calculate,
   c2_ghg_stages_sum_to_total exampleModel exampleResult exampleModel_calculate⟩

/-- C5 counterexample: the electricity-source carbon intensity table
does not contain 15 named sources. -/
theorem c5_cex : ¬ electricity_carbon_intensities.length = 15 := by
  simp [electricity_carbon_intensities]

/-- C5 (amended): the lookup table has exactly 14 named sources; an
explicit-`none` intensity request with a recognized source stores the
table value, while an unrecognized source stores the generic renewable
default 0.020 kg CO2e/kWh and raises the non-fatal warning flag. -/
theorem c5_amended_fourteen_sources_and_default :
    electricity_carbon_intensities.length = 14 ∧
    (∀ (m : SAF_LCA_Model) (ce we : ℚ) (src : String) (eco eh2 wu : ℚ),
      lookupTable electricity_carbon_intensities src = none →
      (m.set_electrolysis_data ce we src eco eh2 wu none).1.electrolysis_data =
        some ⟨ce, we, src, 0.020, eco, eh2, wu⟩ ∧
      (m.set_electrolysis_data ce we src eco eh2 wu none).2 = true) ∧
    (∀ (m : SAF_LCA_Model) (ce we : ℚ) (src : String) (eco eh2 wu : ℚ) (i : ℚ),
      lookupTable electricity_carbon_intensities src = some i →
      (m.set_electrolysis_data ce we src eco eh2 wu none).1.electrolysis_data =
        some ⟨ce, we, src, i, eco, eh2, wu⟩) := by
  refine ⟨rfl, ?_, ?_⟩
  · intro m ce we src eco eh2 wu h
    unfold SAF_LCA_Model.set_electrolysis_data resolveIntensity elecWarning
    rw [h]
    exact ⟨rfl, rfl⟩
  · intro m ce we src eco eh2 wu i h
    unfold SAF_LCA_Model.set_electrolysis_data resolveIntensity
    rw [h]

/-- C5 witness: a concrete unrecognized source ("fusion") falls back to
the 0.020 default with the diagnostic flag set, and a concrete
recognized source ("wind") resolves to its table value. -/
theorem c5_witness :
    lookupTable electricity_carbon_intensities "fusion" = none ∧
    (initModel.set_electrolysis_data 65 75 "fusion" 28 55 20 none).1.electrolysis_data =
      some ⟨65, 75, "fusion", 0.020, 28, 55, 20⟩ ∧
    (initModel.set_electrolysis_data 65 75 "fusion" 28 55 20 none).2 = true ∧
    (initModel.set_electrolysis_data 65 75 "wind" 28 55 20 none).1.electrolysis_data =
      some ⟨65, 75, "wind", 0.011, 28, 55, 20⟩ := by
  have h1 := (c5_amended_fourteen_sources_and_default.2.1 initModel 65 75 "fusion" 28 55 20 rfl)
  have h2 := (c5_amended_fourteen_sources_and_default.2.2 initModel 65 75 "wind" 28 55 20 0.011 rfl)
  exact ⟨rfl, h1.1, h1.2, h2⟩

/-- C6: `set_distribution_data` rejects any transport mode outside
truck/rail/ship/barge/pipeline with a ValueError raised before any
state change (the model is returned unchanged), and accepts every mode
in that set. -/
theorem c6_distribution_mode_validation :
    (∀ (m : SAF_LCA_Model) (d : ℚ) (mode : String) (dens : ℚ),
      mode ∉ valid_transport_modes →
      m.runSetDistribution d mode dens = (m, some .valueError)) ∧
    (∀ (m : SAF_LCA_Model) (d : ℚ) (mode : String) (dens : ℚ),
      mode ∈ valid_transport_modes →
      exceptIsOk (m.set_distribution_data d mode dens) = true) := by
  constructor
  · intro m d mode dens h
    have he : lookupTable emission_factors mode = none := by
      apply lookupTable_eq_none
      simpa [emission_factors, valid_transport_modes] using h
    unfold SAF_LCA_Model.runSetDistribution SAF_LCA_Model.set_distribution_data
    rw [he]
  · intro m d mode dens h
    fin_cases h <;> rfl

/-- C6 witness: "teleport" is rejected leaving the model unchanged,
and "truck" is accepted. -/
theorem c6_witness :
    ("teleport" ∉ valid_transport_modes ∧
      initModel.runSetDistribution 1 "teleport" 0.8 = (initModel, some .valueError)) ∧
    ("truck" ∈ valid_transport_modes ∧
      exceptIsOk (initModel.set_distribution_data 1 "truck" 0.8) = true) :=
  ⟨⟨by decide, c6_distribution_mode_validation.1 initModel 1 "teleport" 0.8 (by decide)⟩,
   ⟨by decide, c6_distribution_mode_validation.2 initModel 1 "truck" 0.8 (by decide)⟩⟩

lemma calcAll_ne_missing (cc : CarbonCaptureData) (el : ElectrolysisData)
    (cv : ConversionData) (dist : DistributionData) (up : UsePhaseData) :
    calcAll cc el cv dist up ≠ .error .missingData := by
  unfold calcAll
  split_ifs <;> simp

lemma calculate_lca_none (m : SAF_LCA_Model)
    (h : m.carbon_capture_data = none ∨ m.electrolysis_data = none ∨
      m.conversion_data = none ∨ m.distribution_data = none ∨
      m.use_phase_data = none) :
    m.calculate_lca = .error .missingData := by
  unfold SAF_LCA_Model.calculate_lca
  rcases hcc : m.carbon_capture_data with _ | cc <;>
  rcases hel : m.electrolysis_data with _ | el <;>
  rcases hcv : m.conversion_data with _ | cv <;>
  rcases hdist : m.distribution_data with _ | dist <;>
  rcases hup : m.use_phase_data with _ | up <;>
  simp_all

/-- C7: `calculate_lca` fails with the missing-data error exactly when
some parameter group is unset; on any error the stored results are
untouched (no partial result); and with all groups populated and all
divisors nonzero it returns a complete result. -/
theorem c7_missing_data_iff (m : SAF_LCA_Model) :
    (m.calculate_lca = .error .missingData ↔
      (m.carbon_capture_data = none ∨ m.electrolysis_data = none ∨
       m.conversion_data = none ∨ m.distribution_data = none ∨
       m.use_phase_data = none)) ∧
    (∀ e, m.calculate_lca = .error e → (m.runCalculate).1 = m) ∧
    (∀ (cc : CarbonCaptureData) (el : ElectrolysisData) (cv : ConversionData)
       (dist : DistributionData) (up : UsePhaseData),
      m.carbon_capture_data = some cc → m.electrolysis_data = some el →
      m.conversion_data = some cv → m.distribution_data = some dist →
      m.use_phase_data = some up →
      up.energy_density ≠ 0 → cc.capture_efficiency ≠ 0 →
      1 + cv.co_h2_ratio.getD 0.5 ≠ 0 → el.co2_electrolysis_efficiency ≠ 0 →
      el.water_electrolysis_efficiency ≠ 0 →
      exceptIsOk m.calculate_lca = true) := by
  refine ⟨⟨?_, calculate_lca_none m⟩, ?_, ?_⟩
  · intro h
    rcases hcc : m.carbon_capture_data with _ | cc
    · exact Or.inl rfl
    rcases hel : m.electrolysis_data with _ | el
    · exact Or.inr (Or.inl rfl)
    rcases hcv : m.conversion_data with _ | cv
    · exact Or.inr (Or.inr (Or.inl rfl))
    rcases hdist : m.distribution_data with _ | dist
    · exact Or.inr (Or.inr (Or.inr (Or.inl rfl)))
    rcases hup : m.use_phase_data with _ | up
    · exact Or.inr (Or.inr (Or.inr (Or.inr rfl)))
    rw [calculate_lca_populated m hcc hel hcv hdist hup] at h
    exact absurd h (calcAll_ne_missing cc el cv dist up)
  · intro e h
    unfold SAF_LCA_Model.runCalculate
    rw [h]
  · intro cc el cv dist up hcc hel hcv hdist hup h1 h2 h3 h4 h5
    rw [calculate_lca_populated m hcc hel hcv hdist hup]
    simp [calcAll, h1, h2, h3, h4, h5, exceptIsOk]

/-- C7 witness: the freshly initialised model (all groups unset) raises
the missing-data error and stays unchanged, while the fully populated
example configuration succeeds. -/
theorem c7_witness :
    initModel.calculate_lca = .error LCAError.missingData ∧
    (initModel.runCalculate).1 = initModel ∧
    exceptIsOk exampleModel.calculate_lca = true := by
  have h1 := (c7_missing_data_iff initModel).1.mpr (Or.inl rfl)
  refine ⟨h1, (c7_missing_data_iff initModel).2.1 LCAError.missingData h1, ?_⟩
  exact (c7_missing_data_iff exampleModel).2.2 exampleCC exampleEL exampleCV
    exampleDist exampleUP (by rw [exampleModel_eq]) (by rw [exampleModel_eq])
    (by rw [exampleModel_eq]) (by rw [exampleModel_eq]) (by rw [exampleModel_eq])
    (by norm_num [exampleUP]) (by norm_num [exampleCC]) (by norm_num [exampleCV])
    (by norm_num [exampleEL]) (by norm_num [exampleEL])

/-- C10: with all five groups populated, a zero energy density, zero
capture efficiency, or zero electrolysis efficiency makes
`calculate_lca` raise a division error with the stored results left
completely unchanged (no NaN-valued result is produced). -/
theorem c10_zero_denominator_atomic (m : SAF_LCA_Model)
    (cc : CarbonCaptureData) (el : ElectrolysisData) (cv : ConversionData)
    (dist : DistributionData) (up : UsePhaseData)
    (hcc : m.carbon_capture_data = some cc) (hel : m.electrolysis_data = some el)
    (hcv : m.conversion_data = some cv) (hdist : m.distribution_data = some dist)
    (hup : m.use_phase_data = some up)
    (h0 : up.energy_density = 0 ∨ cc.capture_efficiency = 0 ∨
      el.co2_electrolysis_efficiency = 0 ∨ el.water_electrolysis_efficiency = 0) :
    m.runCalculate = (m, .error .divByZero) := by
  have hc : m.calculate_lca = .error .divByZero := by
    rw [calculate_lca_populated m hcc hel hcv hdist hup]
    unfold calcAll
    split_ifs <;> first | rfl | (exfalso; tauto)
  unfold SAF_LCA_Model.runCalculate
  rw [hc]

lemma zeroEnergyDensityModel_eq :
    zeroEnergyDensityModel = ⟨some exampleCV, some exampleDist, some ⟨0, 0⟩,
      some exampleCC, some exampleEL, none⟩ := by
  unfold zeroEnergyDensityModel SAF_LCA_Model.set_use_phase_data
  rw [exampleModel_eq]
  norm_num

/-- C10 witness: the example configuration with energy density zeroed
raises the division error and leaves the model unchanged. -/
theorem c10_witness :
    zeroEnergyDensityModel.runCalculate = (zeroEnergyDensityModel, .error LCAError.divByZero) :=
  c10_zero_denominator_atomic zeroEnergyDensityModel exampleCC exampleEL exampleCV
    exampleDist ⟨0, 0⟩ (by rw [zeroEnergyDensityModel_eq]) (by rw [zeroEnergyDensityModel_eq])
    (by rw [zeroEnergyDensityModel_eq]) (by rw [zeroEnergyDensityModel_eq])
    (by rw [zeroEnergyDensityModel_eq]) (Or.inl rfl)

/-- C9: with a GHG result present, `calculate_emission_reduction`
returns exactly (baseline − total×1000)/baseline×100 and hands back the
unmodified model, so a second call without recomputation returns the
same value; with no result present it auto-triggers one `calculate_lca`
and computes the same formula on the fresh result. -/
theorem c9_emission_reduction_formula :
    (∀ (m : SAF_LCA_Model) (res : LCAResults) (fossil : ℚ), fossil ≠ 0 →
      m.results = some res →
      m.calculate_emission_reduction fossil =
        .ok (m, (fossil - res.ghg_emissions.total * 1000) / fossil * 100)) ∧
    (∀ (m : SAF_LCA_Model) (r : LCAResults) (fossil : ℚ), fossil ≠ 0 →
      m.results = none → m.calculate_lca = .ok r →
      m.calculate_emission_reduction fossil =
        .ok ((m.runCalculate).1, (fossil - r.ghg_emissions.total * 1000) / fossil * 100)) := by
  constructor
  · intro m res fossil hf hres
    unfold SAF_LCA_Model.calculate_emission_reduction
    rw [hres]
    simp [hf]
  · intro m r fossil hf hres hcalc
    unfold SAF_LCA_Model.calculate_emission_reduction SAF_LCA_Model.runCalculate
    rw [hres, hcalc]
    simp [hf]

lemma exampleModelAfterCalc_results :
    exampleModelAfterCalc.results = some exampleResult := by
  unfold exampleModelAfterCalc SAF_LCA_Model.runCalculate
  rw [exampleModel_calculate]

/-- C9 witness: on the calculated example model, the reduction against
the 89 g baseline is exactly the claimed formula with the model
unchanged. -/
theorem c9_witness :
    exampleModelAfterCalc.calculate_emission_reduction 89 =
      .ok (exampleModelAfterCalc,
        (89 - exampleResult.ghg_emissions.total * 1000) / 89 * 100) :=
  c9_emission_reduction_formula.1 exampleModelAfterCalc exampleResult 89
    (by norm_num) exampleModelAfterCalc_results

/-- C4 counterexample: on the documented example configuration the
`energy_consumption` category of the result has no "use_phase" key, so
not every category contains a value for all five stage names. -/
theorem c4_cex :
    exampleModel.calculate_lca.map (fun r => r.energy_consumption.lookup "use_phase") =
      .ok none := by
  rw [exampleModel_calculate]
  rfl

/-- C4 (amended): every successful `calculate_lca` returns the four
top-level categories, where `ghg_emissions` carries all five stages,
`energy_consumption` only four (no use_phase), `water_usage` only three
(no distribution, no use_phase), `land_use` only a total fixed at 0,
and each category's "total" key equals the sum of its own stage
values. -/
theorem c4_result_shape (m : SAF_LCA_Model) (r : LCAResults)
    (h : m.calculate_lca = .ok r) :
    (∀ k ∈ stage_names, (r.ghg_emissions.lookup k).isSome = true) ∧
    r.ghg_emissions.lookup "total" = some (r.ghg_emissions.carbon_capture +
      r.ghg_emissions.electrolysis + r.ghg_emissions.conversion +
      r.ghg_emissions.distribution + r.ghg_emissions.use_phase) ∧
    (∀ k ∈ ["carbon_capture", "electrolysis", "conversion", "distribution"],
      (r.energy_consumption.lookup k).isSome = true) ∧
    r.energy_consumption.lookup "use_phase" = none ∧
    r.energy_consumption.lookup "total" = some (r.energy_consumption.carbon_capture +
      r.energy_consumption.electrolysis + r.energy_consumption.conversion +
      r.energy_consumption.distribution) ∧
    (∀ k ∈ ["carbon_capture", "electrolysis", "conversion"],
      (r.water_usage.lookup k).isSome = true) ∧
    r.water_usage.lookup "distribution" = none ∧
    r.water_usage.lookup "use_phase" = none ∧
    r.water_usage.lookup "total" = some (r.water_usage.carbon_capture +
      r.water_usage.electrolysis + r.water_usage.conversion) ∧
    r.land_use.lookup "total" = some 0 ∧
    (∀ k ∈ stage_names, r.land_use.lookup k = none) := by
  obtain ⟨cc, el, cv, dist, up, _, _, _, _, _, hca⟩ := calculate_lca_ok_inv h
  rw [calcAll_ok_iff] at hca
  rw [hca.2.2.2.2.2]
  refine ⟨?_, rfl, ?_, rfl, rfl, ?_, rfl, rfl, rfl, rfl, ?_⟩
  · intro k hk
    fin_cases hk <;> rfl
  · intro k hk
    fin_cases hk <;> rfl
  · intro k hk
    fin_cases hk <;> rfl
  · intro k hk
    fin_cases hk <;> rfl

lemma set_distribution_ok_inv {m m' : SAF_LCA_Model} {d : ℚ} {mode : String}
    {dens : ℚ} (h : m.set_distribution_data d mode dens = .ok m') :
    ∃ ef enf, lookupTable emission_factors mode = some ef ∧
      lookupTable energy_factors mode = some enf ∧
      m' = { m with distribution_data := some (mkDistribution d mode dens ef enf) } := by
  unfold SAF_LCA_Model.set_distribution_data at h
  split at h
  next ef enf hef henf =>
    exact ⟨ef, enf, hef, henf, (Except.ok.injEq _ _).mp h.symm⟩
  next => simp at h

lemma emission_factor_pos {mode : String} {ef : ℚ}
    (h : lookupTable emission_factors mode = some ef) : 0 < ef := by
  simp only [emission_factors, lookupTable] at h
  split_ifs at h <;> simp_all <;> norm_num [h.symm]

lemma calcResultOf_ghg_distribution (cc : CarbonCaptureData)
    (el : ElectrolysisData) (cv : ConversionData) (dist : DistributionData)
    (up : UsePhaseData) :
    (calcResultOf cc el cv dist up).ghg_emissions.distribution =
      dist.ghg_emissions * (1 / up.energy_density) := rfl

lemma calcResultOf_ghg_total_eq (cc : CarbonCaptureData)
    (el : ElectrolysisData) (cv : ConversionData) (dist : DistributionData)
    (up : UsePhaseData) :
    (calcResultOf cc el cv dist up).ghg_emissions.total =
      (calcResultOf cc el cv dist up).ghg_emissions.carbon_capture +
      (calcResultOf cc el cv dist up).ghg_emissions.electrolysis +
      (calcResultOf cc el cv dist up).ghg_emissions.conversion +
      (calcResultOf cc el cv dist up).ghg_emissions.distribution +
      (calcResultOf cc el cv dist up).ghg_emissions.use_phase := rfl

lemma calcResultOf_stages_dist_independent (cc : CarbonCaptureData)
    (el : ElectrolysisData) (cv : ConversionData) (up : UsePhaseData)
    (da db : DistributionData) :
    (calcResultOf cc el cv da up).ghg_emissions.carbon_capture =
      (calcResultOf cc el cv db up).ghg_emissions.carbon_capture ∧
    (calcResultOf cc el cv da up).ghg_emissions.electrolysis =
      (calcResultOf cc el cv db up).ghg_emissions.electrolysis ∧
    (calcResultOf cc el cv da up).ghg_emissions.conversion =
      (calcResultOf cc el cv db up).ghg_emissions.conversion ∧
    (calcResultOf cc el cv da up).ghg_emissions.use_phase =
      (calcResultOf cc el cv db up).ghg_emissions.use_phase :=
  ⟨rfl, rfl, rfl, rfl⟩

/-- C8: with all groups populated, a positive energy density and a
recognized transport mode held fixed, setting a strictly larger
transport distance and recomputing strictly increases both the
distribution-stage GHG value and the GHG total. -/
theorem c8_distance_strictly_monotonic (m m1 m2 : SAF_LCA_Model)
    (mode : String) (d1 d2 dens : ℚ) (r1 : LCAResults) (up : UsePhaseData)
    (hup : m.use_phase_data = some up) (hed : 0 < up.energy_density)
    (hd : 0 ≤ d1) (hlt : d1 < d2)
    (h1 : m.set_distribution_data d1 mode dens = .ok m1)
    (h2 : m.set_distribution_data d2 mode dens = .ok m2)
    (hc1 : m1.calculate_lca = .ok r1) :
    ∃ r2, m2.calculate_lca = .ok r2 ∧
      r1.ghg_emissions.distribution < r2.ghg_emissions.distribution ∧
      r1.ghg_emissions.total < r2.ghg_emissions.total := by
  obtain ⟨ef, enf, hef, henf, hm1⟩ := set_distribution_ok_inv h1
  obtain ⟨ef', enf', hef', henf', hm2⟩ := set_distribution_ok_inv h2
  rw [hef] at hef'
  rw [henf] at henf'
  obtain rfl : ef = ef' := Option.some.inj hef'
  obtain rfl : enf = enf' := Option.some.inj henf'
  subst hm1
  subst hm2
  obtain ⟨cc, el, cv, dist1, up1, hcc1, hel1, hcv1, hdist1, hup1, hca1⟩ :=
    calculate_lca_ok_inv hc1
  have hup1' : m.use_phase_data = some up1 := hup1
  rw [hup] at hup1'
  obtain rfl : up = up1 := Option.some.inj hup1'
  have hdist1' : (some (mkDistribution d1 mode dens ef enf) :
      Option DistributionData) = some dist1 := hdist1
  obtain rfl : mkDistribution d1 mode dens ef enf = dist1 :=
    Option.some.inj hdist1'
  rw [calcAll_ok_iff] at hca1
  obtain ⟨he1, he2, he3, he4, he5, hr1⟩ := hca1
  subst hr1
  have hcc2 : m.carbon_capture_data = some cc := hcc1
  have hel2 : m.electrolysis_data = some el := hel1
  have hcv2 : m.conversion_data = some cv := hcv1
  have hc2 : ({ m with distribution_data := some (mkDistribution d2 mode dens ef enf) } :
        SAF_LCA_Model).calculate_lca =
      .ok (calcResultOf cc el cv (mkDistribution d2 mode dens ef enf) up) := by
    rw [calculate_lca_populated
      ({ m with distribution_data := some (mkDistribution d2 mode dens ef enf) })
      hcc2 hel2 hcv2 rfl hup]
    rw [calcAll_ok_iff]
    exact ⟨he1, he2, he3, he4, he5, rfl⟩
  have hef0 : 0 < ef := emission_factor_pos hef
  have hfac : 0 < 1 / up.energy_density := by positivity
  have hdistlt :
      (calcResultOf cc el cv (mkDistribution d1 mode dens ef enf) up).ghg_emissions.distribution <
      (calcResultOf cc el cv (mkDistribution d2 mode dens ef enf) up).ghg_emissions.distribution := by
    rw [calcResultOf_ghg_distribution, calcResultOf_ghg_distribution]
    show (ef * 0.001 * d1) * (1 / up.energy_density) <
      (ef * 0.001 * d2) * (1 / up.energy_density)
    have hpos : 0 < ef * 0.001 := mul_pos hef0 (by norm_num)
    exact mul_lt_mul_of_pos_right (mul_lt_mul_of_pos_left hlt hpos) hfac
  refine ⟨_, hc2, hdistlt, ?_⟩
  rw [calcResultOf_ghg_total_eq, calcResultOf_ghg_total_eq]
  obtain ⟨e1, e2, e3, e4⟩ := calcResultOf_stages_dist_independent cc el cv up
    (mkDistribution d1 mode dens ef enf) (mkDistribution d2 mode dens ef enf)
  rw [e1, e2, e3, e4]
  exact add_lt_add_right (add_lt_add_left hdistlt _) _

lemma exampleModel_setDist500 :
    exampleModel.set_distribution_data 500.0 "truck" 0.8 = .ok exampleModelD1 := rfl

lemma exampleModel_setDist600 :
    exampleModel.set_distribution_data 600.0 "truck" 0.8 = .ok exampleModelD2 := rfl

lemma exampleModelD1_eq : exampleModelD1 = exampleModel := rfl

/-- C8 witness: moving the example configuration's truck distribution
from 500 km to 600 km strictly increases the distribution stage and
the GHG total. -/
theorem c8_witness :
    ∃ r2, exampleModelD2.calculate_lca = .ok r2 ∧
      exampleResult.ghg_emissions.distribution < r2.ghg_emissions.distribution ∧
      exampleResult.ghg_emissions.total < r2.ghg_emissions.total :=
  c8_distance_strictly_monotonic exampleModel exampleModelD1 exampleModelD2 "truck"
    500.0 600.0 0.8 exampleResult exampleUP
    (by rw [exampleModel_eq]) (by norm_num [exampleUP]) (by norm_num) (by norm_num)
    exampleModel_setDist500 exampleModel_setDist600
    (by rw [exampleModelD1_eq, exampleModel_calculate])

lemma calculate_lca_congr (a b : SAF_LCA_Model)
    (h1 : a.carbon_capture_data = b.carbon_capture_data)
    (h2 : a.electrolysis_data = b.electrolysis_data)
    (h3 : a.conversion_data = b.conversion_data)
    (h4 : a.distribution_data = b.distribution_data)
    (h5 : a.use_phase_data = b.use_phase_data) :
    a.calculate_lca = b.calculate_lca := by
  unfold SAF_LCA_Model.calculate_lca
  rw [h1, h2, h3, h4, h5]

lemma elecSweepLoop_preserves (srcs : List String) (oc oh : ℚ) :
    ∀ (m mf : SAF_LCA_Model) (rows : List ElecRow) (el : ElectrolysisData),
    m.electrolysis_data = some el →
    elecSweepLoop oc oh srcs m = .ok (mf, rows) →
    mf.carbon_capture_data = m.carbon_capture_data ∧
    mf.conversion_data = m.conversion_data ∧
    mf.distribution_data = m.distribution_data ∧
    mf.use_phase_data = m.use_phase_data ∧
    ∃ elf, mf.electrolysis_data = some elf ∧
      elf.co2_electrolysis_efficiency = el.co2_electrolysis_efficiency ∧
      elf.water_electrolysis_efficiency = el.water_electrolysis_efficiency ∧
      elf.water_usage = el.water_usage := by
  induction srcs with
  | nil =>
    intro m mf rows el hel h
    simp only [elecSweepLoop, Except.ok.injEq, Prod.mk.injEq] at h
    obtain ⟨rfl, rfl⟩ := h
    exact ⟨rfl, rfl, rfl, rfl, el, hel, rfl, rfl, rfl⟩
  | cons s rest ih =>
    intro m mf rows el hel h
    unfold elecSweepLoop at h
    rw [hel] at h
    simp only [] at h
    split at h
    next e hc => simp at h
    next r hc =>
      split at h
      next e hrec => simp at h
      next p hrec =>
        simp only [Except.ok.injEq, Prod.mk.injEq] at h
        obtain ⟨rfl, rfl⟩ := h
        have hel2 : ({ (m.set_electrolysis_data el.co2_electrolysis_efficiency
            el.water_electrolysis_efficiency s oc oh el.water_usage none).1
            with results := some r } : SAF_LCA_Model).electrolysis_data =
            some ⟨el.co2_electrolysis_efficiency, el.water_electrolysis_efficiency,
              s, resolveIntensity s none, oc, oh, el.water_usage⟩ := rfl
        obtain ⟨p1, p2, p3, p4, elf, pe, pf1, pf2, pf3⟩ := ih _ _ _ _ hel2 hrec
        exact ⟨p1, p2, p3, p4, elf, pe, pf1, pf2, pf3⟩

lemma transportSweepLoop_preserves (modes : List String) (bd dens : ℚ) :
    ∀ (m mf : SAF_LCA_Model) (rows : List TransportRow),
    transportSweepLoop bd dens modes m = .ok (mf, rows) →
    mf.carbon_capture_data = m.carbon_capture_data ∧
    mf.electrolysis_data = m.electrolysis_data ∧
    mf.conversion_data = m.conversion_data ∧
    mf.use_phase_data = m.use_phase_data := by
  induction modes with
  | nil =>
    intro m mf rows h
    simp only [transportSweepLoop, Except.ok.injEq, Prod.mk.injEq] at h
    obtain ⟨rfl, rfl⟩ := h
    exact ⟨rfl, rfl, rfl, rfl⟩
  | cons mo rest ih =>
    intro m mf rows h
    unfold transportSweepLoop at h
    split at h
    next e hs => simp at h
    next m1 hs =>
      split at h
      next e hc => simp at h
      next r hc =>
        simp only [] at h
        split at h
        next hdist => simp at h
        next d hd =>
          split at h
          next e hrec => simp at h
          next p hrec =>
            simp only [Except.ok.injEq, Prod.mk.injEq] at h
            obtain ⟨rfl, rfl⟩ := h
            obtain ⟨ef, enf, hef, henf, rfl⟩ := set_distribution_ok_inv hs
            obtain ⟨p1, p2, p3, p4⟩ := ih _ _ _ hrec
            exact ⟨p1, p2, p3, p4⟩

lemma mkDistribution_eta (d : DistributionData) (hwf : d.wf) :
    mkDistribution d.transport_distance d.transport_mode d.fuel_density
      d.emission_factor d.energy_factor = d := by
  obtain ⟨td, tm, fd, ef0, enf0, g, e⟩ := d
  obtain ⟨_, _, hg, he⟩ := hwf
  simp only at hg he
  rw [mkDistribution, hg, he]

/-- C3: after a completed `analyze_electricity_sources` or
`analyze_transport_modes` sweep, every parameter group is restored
exactly (for transport, assuming the stored distribution record is one
the setter produced), so a `calculate_lca` call after the sweep yields
the very same outcome as one before it. -/
theorem c3_sweeps_restore_state :
    (∀ (m mOut : SAF_LCA_Model) (sources : List String) (df : List ElecRow),
      m.analyze_electricity_sources sources = .ok (mOut, df) →
      mOut.carbon_capture_data = m.carbon_capture_data ∧
      mOut.electrolysis_data = m.electrolysis_data ∧
      mOut.conversion_data = m.conversion_data ∧
      mOut.distribution_data = m.distribution_data ∧
      mOut.use_phase_data = m.use_phase_data ∧
      mOut.calculate_lca = m.calculate_lca) ∧
    (∀ (m mOut : SAF_LCA_Model) (modes : List String) (bd : ℚ)
       (df : List TransportRow) (d : DistributionData),
      m.distribution_data = some d → d.wf →
      m.analyze_transport_modes modes bd = .ok (mOut, df) →
      mOut.carbon_capture_data = m.carbon_capture_data ∧
      mOut.electrolysis_data = m.electrolysis_data ∧
      mOut.conversion_data = m.conversion_data ∧
      mOut.distribution_data = m.distribution_data ∧
      mOut.use_phase_data = m.use_phase_data ∧
      mOut.calculate_lca = m.calculate_lca) := by
  constructor
  · intro m mOut sources df h
    unfold SAF_LCA_Model.analyze_electricity_sources at h
    split at h
    next => simp at h
    next el0 hel0 =>
      split at h
      next e hloop => simp at h
      next mf rows hloop =>
        split at h
        next hnone => simp at h
        next elf' helf' =>
          simp only [] at h
          split at h
          next e hcr => simp at h
          next r hcr =>
            simp only [Except.ok.injEq, Prod.mk.injEq] at h
            obtain ⟨rfl, rfl⟩ := h
            obtain ⟨p1, p2, p3, p4, elf, pe, pf1, pf2, pf3⟩ :=
              elecSweepLoop_preserves sources el0.energy_input_co
                el0.energy_input_h2 m mf rows el0 hel0 hloop
            rw [pe] at helf'
            obtain rfl : elf = elf' := Option.some.inj helf'
            have hrestore : ((mf.set_electrolysis_data
                elf.co2_electrolysis_efficiency elf.water_electrolysis_efficiency
                el0.electricity_source el0.energy_input_co el0.energy_input_h2
                elf.water_usage (some el0.electricity_carbon_intensity)).1).electrolysis_data =
                some el0 := by
              show some (⟨elf.co2_electrolysis_efficiency,
                elf.water_electrolysis_efficiency, el0.electricity_source,
                el0.electricity_carbon_intensity, el0.energy_input_co,
                el0.energy_input_h2, elf.water_usage⟩ : ElectrolysisData) = some el0
              rw [pf1, pf2, pf3]
            refine ⟨p1, hrestore.trans hel0.symm, p2, p3, p4, ?_⟩
            exact calculate_lca_congr _ m p1 (hrestore.trans hel0.symm) p2 p3 p4
  · intro m mOut modes bd df d hd hwf h
    unfold SAF_LCA_Model.analyze_transport_modes at h
    rw [hd] at h
    simp only [] at h
    split at h
    next e hloop => simp at h
    next mf rows hloop =>
      split at h
      next e hrs => simp at h
      next mr hrs =>
        split at h
        next e hcr => simp at h
        next r hcr =>
          simp only [Except.ok.injEq, Prod.mk.injEq] at h
          obtain ⟨rfl, rfl⟩ := h
          obtain ⟨p1, p2, p3, p4⟩ :=
            transportSweepLoop_preserves modes bd d.fuel_density m mf rows hloop
          obtain ⟨ef, enf, hef, henf, rfl⟩ := set_distribution_ok_inv hrs
          obtain rfl : ef = d.emission_factor := by
            rw [hwf.1] at hef
            exact (Option.some.inj hef).symm
          obtain rfl : enf = d.energy_factor := by
            rw [hwf.2.1] at henf
            exact (Option.some.inj henf).symm
          have hdrest : (some (mkDistribution d.transport_distance d.transport_mode
              d.fuel_density d.emission_factor d.energy_factor) :
              Option DistributionData) = some d := by
            rw [mkDistribution_eta d hwf]
          refine ⟨p1, p2, p3, hdrest.trans hd.symm, p4, ?_⟩
          exact calculate_lca_congr _ m p1 p2 p3 (hdrest.trans hd.symm) p4

lemma rail_ne_truck : ("rail" = "truck") = False := eq_false (by decide)

lemma exampleElecSweep_isOk :
    exceptIsOk (exampleModel.analyze_electricity_sources ["coal"]) = true := by
  rw [exampleModel_eq]
  norm_num [SAF_LCA_Model.analyze_electricity_sources, elecSweepLoop,
    SAF_LCA_Model.set_electrolysis_data, resolveIntensity, elecWarning,
    lookupTable, electricity_carbon_intensities,
    SAF_LCA_Model.calculate_lca, calcAll, calcResultOf, exceptIsOk,
    exampleCC, exampleEL, exampleCV, exampleDist, exampleUP]

lemma exampleTransSweep_isOk :
    exceptIsOk (exampleModel.analyze_transport_modes ["rail"] 500.0) = true := by
  rw [exampleModel_eq]
  norm_num [SAF_LCA_Model.analyze_transport_modes, transportSweepLoop,
    SAF_LCA_Model.set_distribution_data, lookupTable, emission_factors, energy_factors,
    rail_ne_truck,
    SAF_LCA_Model.calculate_lca, calcAll, calcResultOf, exceptIsOk,
    exampleCC, exampleEL, exampleCV, exampleDist, exampleUP]

lemma exampleDist_wf : exampleDist.wf :=
  ⟨lookup_emission_truck, lookup_energy_truck,
   by norm_num [exampleDist], by norm_num [exampleDist]⟩

/-- C3 witness: a completed electricity sweep over ["coal"] and a
completed transport sweep over ["rail"] on the example configuration
leave a later `calculate_lca` outcome identical to the one before. -/
theorem c3_witness :
    exampleElecSweepModel.calculate_lca = exampleModel.calculate_lca ∧
    exampleTransSweepModel.calculate_lca = exampleModel.calculate_lca := by
  constructor
  · cases hE : exampleModel.analyze_electricity_sources ["coal"] with
    | error e =>
      have hok := exampleElecSweep_isOk
      rw [hE] at hok
      simp [exceptIsOk] at hok
    | ok p =>
      have hm : exampleElecSweepModel = p.1 := by
        unfold exampleElecSweepModel
        rw [hE]
      rw [hm]
      exact (c3_sweeps_restore_state.1 exampleModel p.1 ["coal"] p.2 (by rw [hE])).2.2.2.2.2
  · cases hE : exampleModel.analyze_transport_modes ["rail"] 500.0 with
    | error e =>
      have hok := exampleTransSweep_isOk
      rw [hE] at hok
      simp [exceptIsOk] at hok
    | ok p =>
      have hm : exampleTransSweepModel = p.1 := by
        unfold exampleTransSweepModel
        rw [hE]
      rw [hm]
      exact (c3_sweeps_restore_state.2 exampleModel p.1 ["rail"] 500.0 p.2 exampleDist
        (by rw [exampleModel_eq]) exampleDist_wf (by rw [hE])).2.2.2.2.2

/-- C4 witness: on the documented example result, the GHG category has
a use_phase value while land_use has none, and the GHG total key equals
the stage sum. -/
theorem c4_witness :
    (exampleResult.ghg_emissions.lookup "use_phase").isSome = true ∧
    exampleResult.land_use.lookup "use_phase" = none ∧
    exampleResult.ghg_emissions.lookup "total" = some (exampleResult.ghg_emissions.carbon_capture +
      exampleResult.ghg_emissions.electrolysis + exampleResult.ghg_emissions.conversion +
      exampleResult.ghg_emissions.distribution + exampleResult.ghg_emissions.use_phase) := by
  have h := c4_result_shape exampleModel exampleResult exampleModel_calculate
  exact ⟨h.1 "use_phase" (by decide), h.2.2.2.2.2.2.2.2.2.2 "use_phase" (by decide), h.2.1⟩

end SAFLCA
